import Mathlib

/-!
# PlantDiseaseApp (App.js): a shallow embedding

The development models the four pieces of `App.js` that carry behaviour:

* `ThemeProvider` (lines 19-42): two `useState` cells and one `useEffect` that
  subscribes to the host `Appearance` module;
* `NewsScreen` (lines 44-123): `fetchNews`, `handleViewMore` and the list render;
* `DiagnosticsScreen` (lines 126-169): the two image-picker callbacks;
* `ArticleScreen` (lines 292-296).

JavaScript values are embedded as a small value type, property reads may throw,
and every function that performs side effects returns the ordered trace of the
effects together with its completion (normal or thrown).
-/

namespace PlantDiseaseApp

/-! ## JavaScript values -/

/-- The JavaScript values that flow through the program. Numbers are restricted
to integral values; objects are finite association lists of own data
properties; the function values represented are the constant arrow functions
`() => result`. -/
inductive JSValue where
  | undefined : JSValue
  | null : JSValue
  | bool (b : Bool) : JSValue
  | num (n : Int) : JSValue
  | str (s : String) : JSValue
  | arr (xs : List JSValue) : JSValue
  | obj (fields : List (String × JSValue)) : JSValue
  | fn (result : JSValue) : JSValue

/-- The errors the program can raise or observe. -/
inductive JSError where
  /-- A property read on `undefined` or `null`, or a call of a non-function. -/
  | typeError (msg : String) : JSError
  /-- A free identifier with no binding in module or global scope. -/
  | referenceError (name : String) : JSError
  /-- The value of `new Error(msg)`. -/
  | error (msg : String) : JSError
  /-- A value a host promise rejected with. -/
  | rejection (v : JSValue) : JSError

/-- JavaScript truthiness (`ToBoolean`): `undefined`, `null`, `false`, `0` and
the empty string are falsy; every array and object is truthy. -/
def truthy : JSValue → Bool
  | .undefined => false
  | .null => false
  | .bool b => b
  | .num n => n != 0
  | .str s => s != ""
  | .arr _ => true
  | .obj _ => true
  | .fn _ => true

/-- Whether the value is a function (`typeof v === 'function'`). -/
def isFunction : JSValue → Bool
  | .fn _ => true
  | _ => false

/-- The new state after a `useState` setter is called with `arg`: React calls
a function argument as an updater on the previous state and stores what it
returns; any other argument is stored as it is. -/
def setState (_prev arg : JSValue) : JSValue :=
  match arg with
  | .fn result => result
  | v => v

/-- The expression `a || b`. -/
def jsOr (a b : JSValue) : JSValue :=
  if truthy a then a else b

/-- The strict comparison `v === 'light'` and its like. -/
def strictEqStr : JSValue → String → Bool
  | .str s, t => s == t
  | _, _ => false

/-- Own-property lookup in an object. -/
def lookupField : List (String × JSValue) → String → JSValue
  | [], _ => .undefined
  | (k, v) :: rest, key => if k == key then v else lookupField rest key

/-- The property read `v.key`. Reading from `undefined` or `null` throws a
`TypeError`; an object yields its own property or `undefined`; arrays,
strings and functions have `length`; every other read yields `undefined`
(prototype methods are not data the program reads). -/
def getProp (v : JSValue) (key : String) : Except JSError JSValue :=
  match v with
  | .undefined => .error (.typeError ("Cannot read properties of undefined (reading " ++ key ++ ")"))
  | .null => .error (.typeError ("Cannot read properties of null (reading " ++ key ++ ")"))
  | .obj fields => .ok (lookupField fields key)
  | .arr xs => if key == "length" then .ok (.num xs.length) else .ok .undefined
  | .str s => if key == "length" then .ok (.num s.length) else .ok .undefined
  | .bool _ => .ok .undefined
  | .num _ => .ok .undefined
  | .fn _ => if key == "length" then .ok (.num 0) else .ok .undefined

/-- The indexed read `v[i]`. -/
def getIndex (v : JSValue) (i : Nat) : Except JSError JSValue :=
  match v with
  | .undefined => .error (.typeError ("Cannot read properties of undefined (reading " ++ toString i ++ ")"))
  | .null => .error (.typeError ("Cannot read properties of null (reading " ++ toString i ++ ")"))
  | .arr xs => .ok (xs.getD i .undefined)
  | .obj fields => .ok (lookupField fields (toString i))
  | .str s => if i < s.length then .ok (.str (String.singleton (s.get ⟨i⟩))) else .ok .undefined
  | .bool _ => .ok .undefined
  | .num _ => .ok .undefined
  | .fn _ => .ok .undefined

/-! ## Effects and completions -/

/-- The observable side effects of the screens' functions, in program order. -/
inductive Effect where
  /-- The call `setData(v)` in `NewsScreen`. -/
  | setData (v : JSValue) : Effect
  /-- The call `setLoading(b)` in `NewsScreen`. -/
  | setLoading (b : Bool) : Effect
  /-- The call `console.error(e)`. -/
  | consoleError (e : JSError) : Effect
  /-- The call `console.log(label, v)`. -/
  | consoleLog (label : String) (v : JSValue) : Effect
  /-- The call `Alert.alert(title, message)`; `message` is `undefined` when the
  call passes one argument. -/
  | alert (title : String) (message : JSValue) : Effect
  /-- The call `navigation.navigate(name, params)`. -/
  | navigate (name : String) (params : JSValue) : Effect
  /-- The call `fetch(url, options)` with the given method. -/
  | fetch (url : String) (method : String) : Effect
  /-- An `await`: the function is suspended here until the promise settles. -/
  | suspend : Effect

/-- An execution: the effects performed, in order, and how it completed. -/
structure Run (α : Type) where
  trace : List Effect
  result : Except JSError α

namespace Run

/-- Normal completion with no effect. -/
def ret {α : Type} (a : α) : Run α := ⟨[], .ok a⟩

/-- The statement `throw e`. -/
def throw {α : Type} (e : JSError) : Run α := ⟨[], .error e⟩

/-- Performs one effect. -/
def emit (e : Effect) : Run Unit := ⟨[e], .ok ()⟩

/-- Evaluates an expression that may throw and has no effect. -/
def lift {α : Type} (x : Except JSError α) : Run α := ⟨[], x⟩

/-- The expression `await p`, where the promise `p` settles to `x`: the
function is suspended, then resumes with the value or throws the rejection. -/
def await {α : Type} (x : Except JSError α) : Run α := ⟨[.suspend], x⟩

/-- Sequencing: the second part runs only when the first completes normally. -/
def andThen {α β : Type} (x : Run α) (f : α → Run β) : Run β :=
  match x.result with
  | .ok a => ⟨x.trace ++ (f a).trace, (f a).result⟩
  | .error e => ⟨x.trace, .error e⟩

/-- The statement `try { body } catch (e) { handler }`. -/
def tryCatch {α : Type} (body : Run α) (handler : JSError → Run α) : Run α :=
  match body.result with
  | .ok a => ⟨body.trace, .ok a⟩
  | .error e => ⟨body.trace ++ (handler e).trace, (handler e).result⟩

/-- The statement `try { body } finally { fin }`: `fin` always runs; when it
throws, its error replaces the completion of `body`. -/
def tryFinally {α : Type} (body : Run α) (fin : Run Unit) : Run α :=
  match fin.result with
  | .ok _ => ⟨body.trace ++ fin.trace, body.result⟩
  | .error e => ⟨body.trace ++ fin.trace, .error e⟩

/-- Whether the execution completed normally. -/
def completes {α : Type} (x : Run α) : Bool :=
  match x.result with
  | .ok _ => true
  | .error _ => false

end Run

instance : Monad Run where
  pure := Run.ret
  bind := Run.andThen

/-! ## ThemeProvider (lines 19-42) and the host Appearance module -/

/-- A callback registered through `Appearance.addChangeListener`. The callback
is the closure created by one run of the effect, so it holds the value that
`isThemeAutomatic` had in the render that ran the effect, and the `setTheme`
of the provider instance that rendered it. -/
structure Listener where
  id : Nat
  owner : Nat
  isThemeAutomatic : Bool

/-- The host `Appearance` module: the scheme it reports, the callbacks that are
currently registered, and the history of registrations and removals. -/
structure Appearance where
  colorScheme : JSValue
  listeners : List Listener
  nextId : Nat
  added : List Nat
  removed : List Nat

/-- The hook state of one mounted `ThemeProvider`: the two `useState` cells,
and for the `useEffect` the dependency value of its last run and the
subscription its cleanup closure holds. -/
structure ThemeProvider where
  instanceId : Nat
  theme : JSValue
  isThemeAutomatic : Bool
  deps : Bool
  subscription : Nat

/-- The application: the host module and the provider, when one is mounted. -/
structure App where
  host : Appearance
  provider : Option ThemeProvider
  instances : Nat

/-- The call `Appearance.addChangeListener(cb)`: registers the callback and
returns the subscription. -/
def Appearance.addChangeListener (h : Appearance) (owner : Nat) (captured : Bool) :
    Appearance × Nat :=
  ({ h with
      listeners := h.listeners ++ [{ id := h.nextId, owner := owner, isThemeAutomatic := captured }]
      nextId := h.nextId + 1
      added := h.added ++ [h.nextId] },
   h.nextId)

/-- The call `subscription.remove()`. -/
def Appearance.remove (h : Appearance) (subscription : Nat) : Appearance :=
  { h with
      listeners := h.listeners.filter (fun l => l.id != subscription)
      removed := h.removed ++ [subscription] }

/-- The effect body (lines 24-29): subscribes a callback that closes over the
current `isThemeAutomatic`, and keeps the subscription for the cleanup. -/
def ThemeProvider.effect (h : Appearance) (p : ThemeProvider) : Appearance × ThemeProvider :=
  let r := h.addChangeListener p.instanceId p.isThemeAutomatic
  (r.1, { p with deps := p.isThemeAutomatic, subscription := r.2 })

/-- The cleanup returned by the effect (line 29). -/
def ThemeProvider.cleanup (h : Appearance) (p : ThemeProvider) : Appearance :=
  h.remove p.subscription

/-- React flushes the effect of the committed render: the effect has the
dependency list `[isThemeAutomatic]` (line 30), so when that value differs
from the one of the last run the previous cleanup runs and then the effect
runs again; otherwise nothing happens. -/
def ThemeProvider.commit (h : Appearance) (p : ThemeProvider) : Appearance × ThemeProvider :=
  if p.deps != p.isThemeAutomatic then
    ThemeProvider.effect (ThemeProvider.cleanup h p) p
  else
    (h, p)

/-- The function `toggleThemeManually` (lines 32-35): two setter calls. It
touches neither the subscription nor the registered listener. -/
def toggleThemeManually (p : ThemeProvider) (value : JSValue) : ThemeProvider :=
  let p1 := { p with isThemeAutomatic := false }
  { p1 with theme := setState p1.theme value }

/-- The listener body (lines 24-28) run with the event value `colorScheme`.
The `isThemeAutomatic` it tests is the one its closure holds, and its
`setTheme` is the setter of the instance that registered it. -/
def listenerCallback (l : Listener) (colorScheme : JSValue) (p : ThemeProvider) : ThemeProvider :=
  if l.isThemeAutomatic then
    if l.owner == p.instanceId then { p with theme := setState p.theme colorScheme } else p
  else
    p

/-- The host delivers one appearance change to every registered callback. -/
def dispatch (ls : List Listener) (colorScheme : JSValue) (p : ThemeProvider) : ThemeProvider :=
  ls.foldl (fun q l => listenerCallback l colorScheme q) p

/-- The argument `theme === 'light' ? 'dark' : 'light'` of
`SettingsScreen.toggleTheme` (line 190). -/
def toggleThemeArg (theme : JSValue) : JSValue :=
  if strictEqStr theme "light" then .str "dark" else .str "light"

/-- What can happen to the application. -/
inductive Action where
  /-- React mounts `<ThemeProvider>`. -/
  | mount : Action
  /-- React unmounts the provider. -/
  | unmount : Action
  /-- A consumer calls the context field `setTheme`, which is
  `toggleThemeManually` (line 38). -/
  | setTheme (value : JSValue) : Action
  /-- A consumer calls the context field `setThemeAutomatic` (line 38). -/
  | setThemeAutomatic (b : Bool) : Action
  /-- The Settings switch fires `toggleTheme` (line 190). -/
  | toggleTheme : Action
  /-- The OS reports an appearance change. -/
  | appearanceChanged (colorScheme : JSValue) : Action
  /-- React flushes the pending effect of the provider. -/
  | flushEffects : Action

/-- Mount of a new provider, its first render and the first run of its effect
(lines 20-30): `theme` starts as `Appearance.getColorScheme() || 'light'`,
`isThemeAutomatic` as `true`. -/
def mountProvider (s : App) : App :=
  let p0 : ThemeProvider :=
    { instanceId := s.instances
      theme := jsOr s.host.colorScheme (.str "light")
      isThemeAutomatic := true
      deps := true
      subscription := 0 }
  let r := ThemeProvider.effect s.host p0
  { host := r.1, provider := some r.2, instances := s.instances + 1 }

/-- A state update of the mounted provider. The update alone runs no effect:
the listener registered by the last run of the effect stays registered until
React flushes the effect of the new render (`Action.flushEffects`). -/
def update (s : App) (f : ThemeProvider → ThemeProvider) : App :=
  match s.provider with
  | none => s
  | some p => { s with provider := some (f p) }

/-- React flushes the effect of the mounted provider. -/
def flush (s : App) : App :=
  match s.provider with
  | none => s
  | some p =>
    let r := ThemeProvider.commit s.host p
    { s with host := r.1, provider := some r.2 }

/-- One step of the application. -/
def step (s : App) : Action → App
  | .mount =>
    match s.provider with
    | some _ => s
    | none => mountProvider s
  | .unmount =>
    match s.provider with
    | none => s
    | some p => { s with host := ThemeProvider.cleanup s.host p, provider := none }
  | .setTheme value => update s (fun p => toggleThemeManually p value)
  | .setThemeAutomatic b => update s (fun p => { p with isThemeAutomatic := b })
  | .toggleTheme => update s (fun p => toggleThemeManually p (toggleThemeArg p.theme))
  | .appearanceChanged colorScheme =>
    let s1 := { s with host := { s.host with colorScheme := colorScheme } }
    update s1 (fun p => dispatch s1.host.listeners colorScheme p)
  | .flushEffects => flush s

/-- Runs a sequence of actions. -/
def run (s : App) (as : List Action) : App :=
  as.foldl step s

/-- The application before the provider is mounted, on a host that reports
`colorScheme`. -/
def App.init (colorScheme : JSValue) : App :=
  { host := { colorScheme := colorScheme, listeners := [], nextId := 0, added := [], removed := [] }
    provider := none
    instances := 0 }

/-- The theme the mounted provider holds, `undefined` when none is mounted. -/
def App.theme (s : App) : JSValue :=
  match s.provider with
  | some p => p.theme
  | none => .undefined

/-- The `isThemeAutomatic` the mounted provider holds, if one is mounted. -/
def App.isThemeAutomatic (s : App) : Option Bool :=
  s.provider.map (fun p => p.isThemeAutomatic)

/-- Whether a provider is mounted. -/
def App.mounted (s : App) : Bool :=
  s.provider.isSome

/-- The ids of the callbacks currently registered with the host. -/
def App.active (s : App) : List Nat :=
  s.host.listeners.map (fun l => l.id)

/-- The values a theme may take: the strings `light` and `dark`. -/
def isLightOrDark (v : JSValue) : Bool :=
  strictEqStr v "light" || strictEqStr v "dark"

/-- The values `ColorSchemeName` admits: `light`, `dark`, or absent. -/
def isColorSchemeName : JSValue → Bool
  | .null => true
  | .undefined => true
  | v => isLightOrDark v

/-- The actions that are not setter calls or lifecycle changes: OS events and
effect flushes. -/
def Action.isPassive : Action → Bool
  | .appearanceChanged _ => true
  | .flushEffects => true
  | _ => false

/-- The invariant of the subscription: the host holds exactly the callback
registered by the last run of the effect of the mounted provider, closed over
the `isThemeAutomatic` of that run (`deps`), and nothing when no provider is
mounted; registrations are numbered in order and the removals followed by the
active callbacks are the registrations. -/
def WF (s : App) : Prop :=
  (match s.provider with
    | none => s.host.listeners = []
    | some p =>
      s.host.listeners =
        [{ id := p.subscription, owner := p.instanceId, isThemeAutomatic := p.deps }]) ∧
  s.host.added = List.range s.host.nextId ∧
  s.host.removed ++ s.active = s.host.added

/-! ## NewsScreen (lines 44-123) -/

/-- The HTTP response `fetch` resolved with: its `ok` flag and what
`response.json()` settles to (the parsed value, or the rejection). -/
structure Response where
  ok : Bool
  json : Except JSError JSValue

/-- How the request of `fetchNews` settles: `fetch` rejects, or resolves with a
response. -/
inductive FetchOutcome where
  | rejected (reason : JSValue) : FetchOutcome
  | resolved (response : Response) : FetchOutcome

/-- What the promise returned by `fetch(...)` settles to. -/
def FetchOutcome.settle : FetchOutcome → Except JSError Response
  | .rejected reason => .error (.rejection reason)
  | .resolved response => .ok response

/-- The call `fetch(url, options)` of lines 53-72. -/
def fetchCall : Effect :=
  .fetch "https://eventregistry.org/api/v1/article/getArticles" "POST"

/-- The `try` block of `fetchNews` (lines 53-79), with its two `await`s. -/
def fetchNewsTry (o : FetchOutcome) : Run Unit := do
  Run.emit fetchCall
  let response ← Run.await o.settle
  if !response.ok then
    Run.throw (.error "Failed to fetch news articles")
  let json ← Run.await response.json
  let articles ← Run.lift (getProp json "articles")
  let results ← Run.lift (getProp articles "results")
  Run.emit (.setData (jsOr results (.arr [])))

/-- The `catch` block of `fetchNews` (lines 80-82). -/
def fetchNewsCatch (error : JSError) : Run Unit := do
  Run.emit (.consoleError error)
  Run.emit (.setData (.arr []))

/-- The `finally` block of `fetchNews` (lines 83-85). -/
def fetchNewsFinally : Run Unit :=
  Run.emit (.setLoading false)

/-- The function `fetchNews` (lines 51-86), run to completion with the outcome
the request settles to. -/
def fetchNews (o : FetchOutcome) : Run Unit :=
  Run.tryFinally (Run.tryCatch (fetchNewsTry o) fetchNewsCatch) fetchNewsFinally

/-- The two `useState` cells of `NewsScreen` (lines 46-47). -/
structure NewsScreen where
  isLoading : Bool
  data : JSValue

/-- The initial state: `useState(true)` and `useState([])`. -/
def NewsScreen.initial : NewsScreen :=
  { isLoading := true, data := .arr [] }

/-- Applies one effect to the screen state; only the two setters touch it. -/
def NewsScreen.apply (st : NewsScreen) : Effect → NewsScreen
  | .setData v => { st with data := setState st.data v }
  | .setLoading b => { st with isLoading := b }
  | _ => st

/-- The screen state after a trace of effects. -/
def NewsScreen.applyAll (st : NewsScreen) (t : List Effect) : NewsScreen :=
  t.foldl NewsScreen.apply st

/-- The screen state once `fetchNews` has settled with the given outcome. -/
def NewsScreen.settled (o : FetchOutcome) : NewsScreen :=
  NewsScreen.initial.applyAll (fetchNews o).trace

/-- The screen states in which an execution is suspended at an `await`, in
order: the state reached by the effects before each suspension, from `st`. -/
def suspendedStates (st : NewsScreen) : List Effect → List NewsScreen
  | [] => []
  | .suspend :: rest => st :: suspendedStates st rest
  | .setData v :: rest => suspendedStates (st.apply (.setData v)) rest
  | .setLoading b :: rest => suspendedStates (st.apply (.setLoading b)) rest
  | _ :: rest => suspendedStates st rest

/-- The values passed to `setLoading` in a trace, in order. -/
def loadingWrites : List Effect → List Bool
  | [] => []
  | .setLoading b :: rest => b :: loadingWrites rest
  | _ :: rest => loadingWrites rest

/-- The function `handleViewMore` (lines 91-94). -/
def handleViewMore (url : JSValue) : Run Unit :=
  Run.emit (.navigate "Article" (.obj [("articleUrl", url)]))

mutual
/-- Whether React accepts the value as a child of `<Text>` (lines 115-116):
strings and numbers are rendered, `null`, `undefined`, booleans and functions
render nothing, an array is accepted when each of its elements is, and a plain
object is rejected ("Objects are not valid as a React child"). -/
def validChild : JSValue → Bool
  | .undefined => true
  | .null => true
  | .bool _ => true
  | .num _ => true
  | .str _ => true
  | .fn _ => true
  | .obj _ => false
  | .arr xs => validChildren xs
/-- Every element of the list is accepted as a child. -/
def validChildren : List JSValue → Bool
  | [] => true
  | x :: rest => validChild x && validChildren rest
end

/-- One rendered list item (lines 102-118): its `key`, the article its two
`onPress` closures hold, and the values read for the image, title and
description. -/
structure ArticleItem where
  key : Nat
  article : JSValue
  image : JSValue
  title : JSValue
  description : JSValue

/-- The callback of `data.map` (lines 101-119) at one element: the element
tree is built, which reads `image`, `title` and `description`. -/
def renderArticle (article : JSValue) (index : Nat) : Except JSError ArticleItem := do
  let image ← getProp article "image"
  let title ← getProp article "title"
  let description ← getProp article "description"
  pure { key := index, article := article, image := image, title := title, description := description }

/-- The call `data.map(cb)` on an array, elements visited in order from
`index`. -/
def renderArticles : List JSValue → Nat → Except JSError (List ArticleItem)
  | [], _ => .ok []
  | article :: rest, index =>
    match renderArticle article index with
    | .error e => .error e
    | .ok item =>
      match renderArticles rest (index + 1) with
      | .error e => .error e
      | .ok items => .ok (item :: items)

/-- React renders the element trees returned by `data.map`: the title and the
description of each item are children of `<Text>` (lines 115-116), and the
first one React does not accept makes the render throw. -/
def reconcileItems : List ArticleItem → Except JSError (List ArticleItem)
  | [] => .ok []
  | item :: rest =>
    if validChild item.title && validChild item.description then
      match reconcileItems rest with
      | .ok items => .ok (item :: items)
      | .error e => .error e
    else
      .error (.error "Objects are not valid as a React child")

/-- What `NewsScreen` renders inside its scroll view. -/
inductive NewsView where
  | activityIndicator : NewsView
  | list (items : List ArticleItem) : NewsView

/-- The render of `NewsScreen` (lines 98-120); a `data` that is not an array
has no `map` to call. The elements are all built by `data.map` first, then
React renders them. -/
def NewsScreen.render (st : NewsScreen) : Except JSError NewsView :=
  if st.isLoading then
    .ok .activityIndicator
  else
    match st.data with
    | .arr xs =>
      match renderArticles xs 0 with
      | .ok elements =>
        match reconcileItems elements with
        | .ok items => .ok (.list items)
        | .error e => .error e
      | .error e => .error e
    | _ => .error (.typeError "data.map is not a function")

/-- Whether a render shows the activity indicator. -/
def showsActivityIndicator : Except JSError NewsView → Bool
  | .ok .activityIndicator => true
  | _ => false

/-- The closure `() => handleViewMore(article.url)` of a list item. -/
def ArticleItem.onPress (item : ArticleItem) : Run Unit := do
  let url ← Run.lift (getProp item.article "url")
  handleViewMore url

/-! ## ArticleScreen (lines 292-296) -/

/-- The element `<WebView source={{ uri }} />`. -/
structure WebView where
  uri : JSValue

/-- The component `ArticleScreen`: destructures `articleUrl` from
`route.params` and shows it. -/
def ArticleScreen (route : JSValue) : Except JSError WebView := do
  let params ← getProp route "params"
  let articleUrl ← getProp params "articleUrl"
  pure { uri := articleUrl }

/-! ## DiagnosticsScreen (lines 126-169) -/

/-- The scope in which the free identifier `Alert` is resolved. The import
list of `App.js` (lines 1-9) does not bind `Alert`, so the lookup falls
through to the global object of the host. -/
structure Globals where
  alertBound : Bool

/-- The scope of `App.js` as written: no import binds `Alert` and the program
never defines it on the global object. -/
def moduleScope : Globals :=
  { alertBound := false }

/-- Evaluation of the identifier `Alert`. -/
def resolveAlert (g : Globals) : Run Unit :=
  if g.alertBound then Run.ret () else Run.throw (.referenceError "Alert")

/-- The callback passed to `launchCamera` (lines 133-142). -/
def launchCameraCallback (g : Globals) (response : JSValue) : Run Unit := do
  let didCancel ← Run.lift (getProp response "didCancel")
  if truthy didCancel then
    resolveAlert g
    Run.emit (.alert "User cancelled camera picker" .undefined)
  else
    let errorCode ← Run.lift (getProp response "errorCode")
    if truthy errorCode then
      resolveAlert g
      let errorMessage ← Run.lift (getProp response "errorMessage")
      Run.emit (.alert "Camera Error: " errorMessage)
    else
      let assets ← Run.lift (getProp response "assets")
      let first ← Run.lift (getIndex assets 0)
      let uri ← Run.lift (getProp first "uri")
      let source := JSValue.obj [("uri", uri)]
      Run.emit (.consoleLog "Photo taken: " source)

/-- The callback passed to `launchImageLibrary` (lines 151-160). -/
def launchImageLibraryCallback (g : Globals) (response : JSValue) : Run Unit := do
  let didCancel ← Run.lift (getProp response "didCancel")
  if truthy didCancel then
    resolveAlert g
    Run.emit (.alert "User cancelled image picker" .undefined)
  else
    let errorCode ← Run.lift (getProp response "errorCode")
    if truthy errorCode then
      resolveAlert g
      let errorMessage ← Run.lift (getProp response "errorMessage")
      Run.emit (.alert "ImagePicker Error: " errorMessage)
    else
      let assets ← Run.lift (getProp response "assets")
      let first ← Run.lift (getIndex assets 0)
      let uri ← Run.lift (getProp first "uri")
      let source := JSValue.obj [("uri", uri)]
      Run.emit (.consoleLog "Photo selected: " source)

/-- The alerts shown in a trace, in order. -/
def alertsShown : List Effect → List (String × JSValue)
  | [] => []
  | .alert title message :: rest => (title, message) :: alertsShown rest
  | _ :: rest => alertsShown rest

/-- The image references (the `source` objects) a trace produced, in order. -/
def imageReferences : List Effect → List JSValue
  | [] => []
  | .consoleLog _ source :: rest => source :: imageReferences rest
  | _ :: rest => imageReferences rest

/-- A picker response whose `didCancel` is set. -/
def isCancellation (response : JSValue) : Bool :=
  match getProp response "didCancel" with
  | .ok v => truthy v
  | .error _ => false

/-- A picker response whose `errorCode` is set. -/
def hasErrorCode (response : JSValue) : Bool :=
  match getProp response "errorCode" with
  | .ok v => truthy v
  | .error _ => false

/-- The failure outcomes of the feed request: the fetch rejects, the status
is not a success, the body does not parse, the parsed value has no `articles`
object, or `articles.results` is absent or falsy. -/
def isFailureOutcome : FetchOutcome → Bool
  | .rejected _ => true
  | .resolved response =>
    !response.ok ||
      match response.json with
      | .error _ => true
      | .ok json =>
        match getProp json "articles" with
        | .ok (.obj fields) => !truthy (lookupField fields "results")
        | _ => true

/-- A value that is neither `null` nor `undefined`. -/
def nonNullish : JSValue → Bool
  | .null => false
  | .undefined => false
  | _ => true

/-- An element of the feed that the list render accepts: it is neither `null`
nor `undefined`, and its `title` and `description` are valid children of
`<Text>`. -/
def renderable (article : JSValue) : Bool :=
  nonNullish article &&
    (match getProp article "title" with
      | .ok title => validChild title
      | .error _ => false) &&
    (match getProp article "description" with
      | .ok description => validChild description
      | .error _ => false)

/-! ## The subscription invariant -/

theorem wf_init (c : JSValue) : WF (App.init c) := by
  simp [WF, App.init, App.active]

theorem commit_spec (h : Appearance) (p : ThemeProvider)
    (hl : h.listeners = [{ id := p.subscription, owner := p.instanceId, isThemeAutomatic := p.deps }])
    (ha : h.added = List.range h.nextId)
    (hr : h.removed ++ [p.subscription] = h.added) :
    (ThemeProvider.commit h p).1.listeners =
        [{ id := (ThemeProvider.commit h p).2.subscription, owner := p.instanceId,
           isThemeAutomatic := p.isThemeAutomatic }] ∧
      (ThemeProvider.commit h p).2.deps = p.isThemeAutomatic ∧
      (ThemeProvider.commit h p).2.isThemeAutomatic = p.isThemeAutomatic ∧
      (ThemeProvider.commit h p).2.theme = p.theme ∧
      (ThemeProvider.commit h p).2.instanceId = p.instanceId ∧
      (ThemeProvider.commit h p).1.added = List.range (ThemeProvider.commit h p).1.nextId ∧
      (ThemeProvider.commit h p).1.removed ++ [(ThemeProvider.commit h p).2.subscription] =
        (ThemeProvider.commit h p).1.added := by
  unfold ThemeProvider.commit
  by_cases hd : p.deps = p.isThemeAutomatic
  · simp [hd, ha, hr]
    rw [← hd]; exact hl
  · simp [hd, ThemeProvider.effect, ThemeProvider.cleanup, Appearance.addChangeListener,
      Appearance.remove, hl, ha, hr, List.range_succ]

theorem wf_listeners (s : App) (p : ThemeProvider) (hwf : WF s) (hp : s.provider = some p) :
    s.host.listeners
      = [{ id := p.subscription, owner := p.instanceId, isThemeAutomatic := p.deps }] := by
  have h1 := hwf.1
  rw [hp] at h1
  exact h1

theorem update_spec (s : App) (p : ThemeProvider) (f : ThemeProvider → ThemeProvider)
    (hwf : WF s) (hp : s.provider = some p)
    (hd : (f p).deps = p.deps) (hs : (f p).subscription = p.subscription)
    (hi : (f p).instanceId = p.instanceId) :
    WF (update s f) ∧ (update s f).provider = some (f p) := by
  have hl := wf_listeners s p hwf hp
  obtain ⟨_, h2, h3⟩ := hwf
  refine ⟨⟨?_, ?_, ?_⟩, ?_⟩
  · simp only [update, hp]
    rw [hl, hd, hs, hi]
  · simp only [update, hp]
    exact h2
  · simp only [update, hp, App.active]
    exact h3
  · simp only [update, hp]

theorem flush_spec (s : App) (p : ThemeProvider) (hwf : WF s) (hp : s.provider = some p) :
    WF (flush s) ∧
      ∃ q, (flush s).provider = some q ∧ q.deps = p.isThemeAutomatic ∧
        q.isThemeAutomatic = p.isThemeAutomatic ∧ q.theme = p.theme := by
  have hl := wf_listeners s p hwf hp
  obtain ⟨_, h2, h3⟩ := hwf
  have hact : s.active = [p.subscription] := by simp [App.active, hl]
  rw [hact] at h3
  obtain ⟨c1, c2, c3, c4, c5, c6, c7⟩ := commit_spec s.host p hl h2 h3
  refine ⟨⟨?_, ?_, ?_⟩, ?_⟩
  · simp only [flush, hp]
    rw [c1, c5, c2]
  · simp only [flush, hp]
    exact c6
  · simp only [flush, hp, App.active]
    rw [c1]
    simpa using c7
  · exact ⟨_, by simp only [flush, hp], c2, c3, c4⟩

theorem wf_setColorScheme (s : App) (c : JSValue) (hwf : WF s) :
    WF { s with host := { s.host with colorScheme := c } } := hwf

theorem dispatch_single (l : Listener) (c : JSValue) (p : ThemeProvider)
    (ho : l.owner = p.instanceId) :
    dispatch [l] c p
      = if l.isThemeAutomatic then { p with theme := setState p.theme c } else p := by
  simp [dispatch, listenerCallback, ho]

theorem step_appearanceChanged (s : App) (p : ThemeProvider) (c : JSValue)
    (hwf : WF s) (hp : s.provider = some p) :
    WF (step s (.appearanceChanged c)) ∧
      ∃ q, (step s (.appearanceChanged c)).provider = some q ∧
        q.theme = (if p.deps then setState p.theme c else p.theme) ∧
        q.isThemeAutomatic = p.isThemeAutomatic ∧ q.deps = p.deps := by
  have hl := wf_listeners s p hwf hp
  have hdisp : dispatch s.host.listeners c p
      = if p.deps then { p with theme := setState p.theme c } else p := by
    rw [hl, dispatch_single _ _ _ rfl]
  have key := update_spec { s with host := { s.host with colorScheme := c } } p
    (fun q => dispatch s.host.listeners c q) (wf_setColorScheme s c hwf) hp
    (by simp only [hdisp]; split <;> rfl) (by simp only [hdisp]; split <;> rfl)
    (by simp only [hdisp]; split <;> rfl)
  refine ⟨key.1, _, key.2, ?_, ?_, ?_⟩
  · simp only [hdisp]; split <;> rfl
  · simp only [hdisp]; split <;> rfl
  · simp only [hdisp]; split <;> rfl

theorem step_setTheme (s : App) (p : ThemeProvider) (m : JSValue)
    (hwf : WF s) (hp : s.provider = some p) :
    WF (step s (.setTheme m)) ∧
      ∃ q, (step s (.setTheme m)).provider = some q ∧ q.theme = setState p.theme m ∧
        q.isThemeAutomatic = false :=
  ⟨(update_spec s p (fun q => toggleThemeManually q m) hwf hp rfl rfl rfl).1,
    _, (update_spec s p (fun q => toggleThemeManually q m) hwf hp rfl rfl rfl).2, rfl, rfl⟩

theorem setState_of_not_function (prev v : JSValue) (h : isFunction v = false) :
    setState prev v = v := by
  cases v <;> first | rfl | simp [isFunction] at h

theorem wf_step (s : App) (a : Action) (hwf : WF s) : WF (step s a) := by
  cases hprov : s.provider with
  | none =>
    cases a with
    | mount =>
      obtain ⟨h1, h2, h3⟩ := hwf
      rw [hprov] at h1
      simp only at h1
      have hact : s.active = [] := by simp [App.active, h1]
      rw [hact] at h3
      simp only [step, hprov, mountProvider, ThemeProvider.effect, Appearance.addChangeListener]
      refine ⟨?_, ?_, ?_⟩
      · simp [h1]
      · simp [h2, List.range_succ]
      · simp [App.active, h1]
        simpa using h3
    | unmount => simpa [step, hprov] using hwf
    | setTheme v => simpa [step, update, hprov] using hwf
    | setThemeAutomatic b => simpa [step, update, hprov] using hwf
    | toggleTheme => simpa [step, update, hprov] using hwf
    | flushEffects => simpa [step, flush, hprov] using hwf
    | appearanceChanged c =>
      have h : step s (.appearanceChanged c)
          = { s with host := { s.host with colorScheme := c } } := by
        simp [step, update, hprov]
      rw [h]
      exact wf_setColorScheme s c hwf
  | some p =>
    cases a with
    | mount => simpa [step, hprov] using hwf
    | unmount =>
      have hl := wf_listeners s p hwf hprov
      obtain ⟨_, h2, h3⟩ := hwf
      have hact : s.active = [p.subscription] := by simp [App.active, hl]
      rw [hact] at h3
      simp only [step, hprov, ThemeProvider.cleanup, Appearance.remove]
      refine ⟨?_, ?_, ?_⟩
      · simp [hl]
      · exact h2
      · simp [App.active, hl]
        exact h3
    | setTheme v => exact (step_setTheme s p v hwf hprov).1
    | setThemeAutomatic b =>
      exact (update_spec s p (fun q => { q with isThemeAutomatic := b }) hwf hprov rfl rfl rfl).1
    | toggleTheme =>
      exact (update_spec s p (fun q => toggleThemeManually q (toggleThemeArg q.theme))
        hwf hprov rfl rfl rfl).1
    | flushEffects => exact (flush_spec s p hwf hprov).1
    | appearanceChanged c => exact (step_appearanceChanged s p c hwf hprov).1

theorem wf_run (s : App) (as : List Action) (hwf : WF s) : WF (run s as) := by
  induction as generalizing s with
  | nil => exact hwf
  | cons a rest ih => exact ih (step s a) (wf_step s a hwf)

theorem wf_lifecycle (s : App) (hwf : WF s) :
    s.host.listeners.length = (if s.mounted then 1 else 0) ∧
      s.host.added.Nodup ∧
      (∀ id, s.host.removed.count id + s.active.count id = s.host.added.count id) ∧
      (step s .unmount).host.listeners = [] ∧
      (step s .unmount).host.removed.length
        = s.host.removed.length + (if s.mounted then 1 else 0) ∧
      (step s .unmount).host.removed = s.host.added := by
  obtain ⟨h1, h2, h3⟩ := hwf
  refine ⟨?_, ?_, ?_, ?_⟩
  · cases hprov : s.provider with
    | none => rw [hprov] at h1; simp only at h1; simp [App.mounted, hprov, h1]
    | some p => rw [hprov] at h1; simp only at h1; simp [App.mounted, hprov, h1]
  · rw [h2]; exact List.nodup_range _
  · intro id
    rw [← h3, List.count_append]
  · cases hprov : s.provider with
    | none =>
      rw [hprov] at h1
      simp only at h1
      have hact : s.active = [] := by simp [App.active, h1]
      rw [hact] at h3
      simp only [step, hprov, App.mounted, h1]
      simpa using h3
    | some p =>
      rw [hprov] at h1
      simp only at h1
      have hact : s.active = [p.subscription] := by simp [App.active, h1]
      rw [hact] at h3
      simp only [step, hprov, App.mounted, ThemeProvider.cleanup, Appearance.remove, h1]
      exact ⟨by simp, by simp, h3⟩

theorem run_passive_flag (s : App) (p : ThemeProvider) (as : List Action)
    (hwf : WF s) (hp : s.provider = some p) (hpassive : as.all Action.isPassive = true) :
    ∃ q, (run s as).provider = some q ∧ q.isThemeAutomatic = p.isThemeAutomatic := by
  induction as generalizing s p with
  | nil => exact ⟨p, hp, rfl⟩
  | cons a rest ih =>
    simp only [List.all_cons, Bool.and_eq_true] at hpassive
    cases a with
    | appearanceChanged c =>
      obtain ⟨hwf1, q, hq, _, hqa, _⟩ := step_appearanceChanged s p c hwf hp
      obtain ⟨r, hr, hra⟩ := ih (step s (.appearanceChanged c)) q hwf1 hq hpassive.2
      exact ⟨r, hr, hra.trans hqa⟩
    | flushEffects =>
      obtain ⟨hwf1, q, hq, _, hqa, _⟩ := flush_spec s p hwf hp
      obtain ⟨r, hr, hra⟩ := ih (step s .flushEffects) q hwf1 hq hpassive.2
      exact ⟨r, hr, hra.trans hqa⟩
    | mount => simp [Action.isPassive] at hpassive
    | unmount => simp [Action.isPassive] at hpassive
    | setTheme v => simp [Action.isPassive] at hpassive
    | setThemeAutomatic b => simp [Action.isPassive] at hpassive
    | toggleTheme => simp [Action.isPassive] at hpassive

theorem run_passive_manual (s : App) (p : ThemeProvider) (as : List Action)
    (hwf : WF s) (hp : s.provider = some p) (hd : p.deps = false)
    (ha : p.isThemeAutomatic = false) (hpassive : as.all Action.isPassive = true) :
    ∃ q, (run s as).provider = some q ∧ q.theme = p.theme ∧ q.isThemeAutomatic = false := by
  induction as generalizing s p with
  | nil => exact ⟨p, hp, rfl, ha⟩
  | cons a rest ih =>
    simp only [List.all_cons, Bool.and_eq_true] at hpassive
    cases a with
    | appearanceChanged c =>
      obtain ⟨hwf1, q, hq, hqt, hqa, hqd⟩ := step_appearanceChanged s p c hwf hp
      rw [hd] at hqt
      simp only [Bool.false_eq_true, if_false] at hqt
      obtain ⟨r, hr, hrt, hra⟩ := ih (step s (.appearanceChanged c)) q hwf1 hq
        (hqd.trans hd) (hqa.trans ha) hpassive.2
      exact ⟨r, hr, hrt.trans hqt, hra⟩
    | flushEffects =>
      obtain ⟨hwf1, q, hq, hqd, hqa, hqt⟩ := flush_spec s p hwf hp
      obtain ⟨r, hr, hrt, hra⟩ := ih (step s .flushEffects) q hwf1 hq
        (hqd.trans ha) (hqa.trans ha) hpassive.2
      exact ⟨r, hr, hrt.trans hqt, hra⟩
    | mount => simp [Action.isPassive] at hpassive
    | unmount => simp [Action.isPassive] at hpassive
    | setTheme v => simp [Action.isPassive] at hpassive
    | setThemeAutomatic b => simp [Action.isPassive] at hpassive
    | toggleTheme => simp [Action.isPassive] at hpassive

/-! ## Claims about ThemeProvider -/

/-- C1 (as stated, refuted). On a host that reports `light`, after
`toggleThemeManually('dark')` the listener registered by the first run of the
effect, closed over `isThemeAutomatic = true`, is still registered until React
re-runs the effect: an OS event reporting `light` delivered before that re-run
sets the theme back to `light` although `isThemeAutomatic` is false. And a
function passed to the setter is called as an updater: after
`toggleThemeManually(() => 'dark')` the theme is `dark`, not the function. -/
theorem stale_listener_overrides_manual_choice :
    (run (App.init (.str "light")) [.mount, .setTheme (.str "dark")]).theme = .str "dark" ∧
      (run (App.init (.str "light"))
          [.mount, .setTheme (.str "dark"), .appearanceChanged (.str "light")]).theme
        = .str "light" ∧
      (run (App.init (.str "light"))
          [.mount, .setTheme (.str "dark"), .appearanceChanged (.str "light")]).isThemeAutomatic
        = some false ∧
      (run (App.init (.str "light")) [.mount, .setTheme (.fn (.str "dark"))]).theme
        = .str "dark" :=
  ⟨rfl, rfl, rfl, rfl⟩

/-- C1 (amended). In every state of a mounted provider (any theme, automatic
or not, effect flushed or not) and for every value `m` that is not a function,
`toggleThemeManually(m)` leaves `theme = m` and `isThemeAutomatic = false`;
`isThemeAutomatic` is still false after any finite sequence of OS appearance
changes and effect flushes; and once React has re-run the effect, `theme` is
still `m` and `isThemeAutomatic` still false after any such sequence. -/
theorem manual_choice_wins (s : App) (p : ThemeProvider) (m : JSValue) (as : List Action)
    (hwf : WF s) (hp : s.provider = some p) (hm : isFunction m = false)
    (hpassive : as.all Action.isPassive = true) :
    (∃ q, (step s (.setTheme m)).provider = some q ∧ q.theme = m ∧
        q.isThemeAutomatic = false) ∧
      (∃ q, (run (step s (.setTheme m)) as).provider = some q ∧ q.isThemeAutomatic = false) ∧
      (∃ q, (run (step (step s (.setTheme m)) .flushEffects) as).provider = some q ∧
        q.theme = m ∧ q.isThemeAutomatic = false) := by
  obtain ⟨hwf1, q, hq, hqt, hqa⟩ := step_setTheme s p m hwf hp
  rw [setState_of_not_function _ _ hm] at hqt
  refine ⟨⟨q, hq, hqt, hqa⟩, ?_, ?_⟩
  · obtain ⟨r, hr, hra⟩ := run_passive_flag _ q as hwf1 hq hpassive
    exact ⟨r, hr, hra.trans hqa⟩
  · obtain ⟨hwf2, q2, hq2, hd2, ha2, ht2⟩ := flush_spec _ q hwf1 hq
    obtain ⟨r, hr, hrt, hra⟩ := run_passive_manual _ q2 as hwf2 hq2 (hd2.trans hqa)
      (ha2.trans hqa) hpassive
    exact ⟨r, hr, hrt.trans (ht2.trans hqt), hra⟩

theorem manual_choice_wins_witness :
    WF (step (App.init (.str "light")) .mount) ∧
      (step (App.init (.str "light")) .mount).provider
        = some { instanceId := 0, theme := .str "light", isThemeAutomatic := true,
                 deps := true, subscription := 0 } ∧
      isFunction (.str "dark") = false ∧
      [Action.appearanceChanged (.str "light"), Action.flushEffects,
          Action.appearanceChanged .null].all Action.isPassive = true ∧
      ∃ q, (run (step (step (step (App.init (.str "light")) .mount) (.setTheme (.str "dark")))
              .flushEffects)
            [Action.appearanceChanged (.str "light"), Action.flushEffects,
              Action.appearanceChanged .null]).provider = some q ∧
        q.theme = .str "dark" ∧ q.isThemeAutomatic = false :=
  ⟨wf_step _ _ (wf_init _), rfl, rfl, rfl,
    (manual_choice_wins (step (App.init (.str "light")) .mount) _ (.str "dark")
      [.appearanceChanged (.str "light"), .flushEffects, .appearanceChanged .null]
      (wf_step _ _ (wf_init _)) rfl rfl rfl).2.2⟩

/-- C2 (as stated, refuted). After `toggleThemeManually('dark')` and before
React re-runs the effect, `isThemeAutomatic` is false and the theme is `dark`;
the listener still registered is the one closed over `true`, so an OS event
reporting `light` changes the theme to `light`. -/
theorem event_before_resubscription_changes_theme :
    (run (App.init (.str "light")) [.mount, .setTheme (.str "dark")]).isThemeAutomatic
        = some false ∧
      (run (App.init (.str "light")) [.mount, .setTheme (.str "dark")]).theme = .str "dark" ∧
      (step (run (App.init (.str "light")) [.mount, .setTheme (.str "dark")])
          (.appearanceChanged (.str "light"))).theme = .str "light" ∧
      (step (run (App.init (.str "light")) [.mount, .setTheme (.str "dark")])
          (.appearanceChanged (.str "light"))).isThemeAutomatic = some false :=
  ⟨rfl, rfl, rfl, rfl⟩

/-- C2 (amended). In every state of a mounted provider, the registered
listener is the one closed over the `isThemeAutomatic` of the last run of the
effect (`deps`). For every OS appearance change it handles: when that captured
value is true the theme afterwards is the reported `colorScheme`, when it is
false the theme is unchanged; `isThemeAutomatic` is unchanged in both cases.
When the effect has run since `isThemeAutomatic` last changed (the captured
value is the current one), this is the claim as first stated. -/
theorem appearance_change_follows_captured (s : App) (p : ThemeProvider) (c : JSValue)
    (hwf : WF s) (hp : s.provider = some p) (hc : isFunction c = false) :
    s.host.listeners.map (fun l => l.isThemeAutomatic) = [p.deps] ∧
      ∃ q, (step s (.appearanceChanged c)).provider = some q ∧
        q.isThemeAutomatic = p.isThemeAutomatic ∧
        q.theme = (if p.deps then c else p.theme) ∧
        (p.deps = p.isThemeAutomatic →
          q.theme = (if p.isThemeAutomatic then c else p.theme)) := by
  obtain ⟨_, q, hq, hqt, hqa, _⟩ := step_appearanceChanged s p c hwf hp
  rw [setState_of_not_function _ _ hc] at hqt
  refine ⟨by rw [wf_listeners s p hwf hp]; rfl, q, hq, hqa, hqt, ?_⟩
  intro hsync
  rw [hqt, hsync]

theorem appearance_change_follows_captured_witness :
    WF (step (App.init (.str "light")) .mount) ∧
      (step (App.init (.str "light")) .mount).provider
        = some { instanceId := 0, theme := .str "light", isThemeAutomatic := true,
                 deps := true, subscription := 0 } ∧
      isFunction (.str "dark") = false ∧
      ∃ q, (step (step (App.init (.str "light")) .mount)
            (.appearanceChanged (.str "dark"))).provider = some q ∧
        q.isThemeAutomatic = true ∧ q.theme = .str "dark" :=
  ⟨wf_step _ _ (wf_init _), rfl, rfl,
    (appearance_change_follows_captured (step (App.init (.str "light")) .mount) _ (.str "dark")
      (wf_step _ _ (wf_init _)) rfl rfl).2.imp
      (fun _ h => ⟨h.1, h.2.1, h.2.2.1⟩)⟩

/-- C6 (evaluation at the failing input). On a host that reports `light`, the
provider mounts with theme `light`; one OS appearance change whose
`colorScheme` is absent (`null`, which `ColorSchemeName` admits) then leaves
the theme `null`, which is neither `light` nor `dark`. The initial value is
guarded by `|| 'light'` (line 20); the listener (line 26) is not. -/
theorem theme_null_after_absent_scheme :
    (run (App.init (.str "light")) [.mount]).theme = .str "light" ∧
      isColorSchemeName .null = true ∧
      (run (App.init (.str "light")) [.mount, .appearanceChanged .null]).theme = .null ∧
      isLightOrDark (run (App.init (.str "light")) [.mount, .appearanceChanged .null]).theme
        = false ∧
      (run (App.init .null) [.mount]).theme = .str "light" :=
  ⟨rfl, rfl, rfl, rfl, rfl⟩

/-- C9. In every state reachable from the unmounted application by mounts,
unmounts, setter calls, OS events and effect flushes: exactly one listener is registered while
the provider is mounted (none otherwise); registrations are pairwise distinct
and each one is either still active or has been removed exactly once, never
both and never twice; destroying the provider performs exactly one removal,
after which no listener is registered and the removals are exactly the
registrations. -/
theorem subscription_lifecycle (c : JSValue) (as : List Action) :
    (run (App.init c) as).host.listeners.length
        = (if (run (App.init c) as).mounted then 1 else 0) ∧
      (run (App.init c) as).host.added.Nodup ∧
      (∀ id, (run (App.init c) as).host.removed.count id + (run (App.init c) as).active.count id
        = (run (App.init c) as).host.added.count id) ∧
      (step (run (App.init c) as) .unmount).host.listeners = [] ∧
      (step (run (App.init c) as) .unmount).host.removed.length
        = (run (App.init c) as).host.removed.length
          + (if (run (App.init c) as).mounted then 1 else 0) ∧
      (step (run (App.init c) as) .unmount).host.removed = (run (App.init c) as).host.added :=
  wf_lifecycle _ (wf_run _ as (wf_init c))

/-! ## The shapes of `fetchNews` -/

theorem fetchNewsTry_rejected (reason : JSValue) :
    fetchNewsTry (.rejected reason) = ⟨[fetchCall, .suspend], .error (.rejection reason)⟩ := rfl

theorem fetchNewsTry_badStatus (json : Except JSError JSValue) :
    fetchNewsTry (.resolved ⟨false, json⟩)
      = ⟨[fetchCall, .suspend], .error (.error "Failed to fetch news articles")⟩ := rfl

theorem fetchNewsTry_unparsable (e : JSError) :
    fetchNewsTry (.resolved ⟨true, .error e⟩) = ⟨[fetchCall, .suspend, .suspend], .error e⟩ := rfl

theorem fetchNewsTry_noArticles (json : JSValue) (e : JSError)
    (h : getProp json "articles" = .error e) :
    fetchNewsTry (.resolved ⟨true, .ok json⟩) = ⟨[fetchCall, .suspend, .suspend], .error e⟩ := by
  simp [fetchNewsTry, bind, Run.andThen, Run.lift, Run.await, FetchOutcome.settle, Run.ret,
    Run.emit, Run.throw, h, pure]

theorem fetchNewsTry_noResults (json articles : JSValue) (e : JSError)
    (h : getProp json "articles" = .ok articles) (hr : getProp articles "results" = .error e) :
    fetchNewsTry (.resolved ⟨true, .ok json⟩) = ⟨[fetchCall, .suspend, .suspend], .error e⟩ := by
  simp [fetchNewsTry, bind, Run.andThen, Run.lift, Run.await, FetchOutcome.settle, Run.ret,
    Run.emit, Run.throw, h, hr, pure]

theorem fetchNewsTry_results (json articles results : JSValue)
    (h : getProp json "articles" = .ok articles) (hr : getProp articles "results" = .ok results) :
    fetchNewsTry (.resolved ⟨true, .ok json⟩)
      = ⟨[fetchCall, .suspend, .suspend] ++ [.setData (jsOr results (.arr []))], .ok ()⟩ := by
  simp [fetchNewsTry, bind, Run.andThen, Run.lift, Run.await, FetchOutcome.settle, Run.ret,
    Run.emit, Run.throw, h, hr, pure]

theorem fetchNews_of_error (o : FetchOutcome) (pre : List Effect) (e : JSError)
    (h : fetchNewsTry o = ⟨pre, .error e⟩) :
    fetchNews o
      = ⟨pre ++ [.consoleError e, .setData (.arr []), .setLoading false], .ok ()⟩ := by
  simp [fetchNews, h, Run.tryFinally, Run.tryCatch, fetchNewsCatch, fetchNewsFinally, bind,
    Run.andThen, Run.emit]

theorem fetchNews_of_ok (o : FetchOutcome) (pre : List Effect) (v : JSValue)
    (h : fetchNewsTry o = ⟨pre ++ [.setData v], .ok ()⟩) :
    fetchNews o = ⟨pre ++ [.setData v, .setLoading false], .ok ()⟩ := by
  simp [fetchNews, h, Run.tryFinally, Run.tryCatch, fetchNewsCatch, fetchNewsFinally, bind,
    Run.andThen, Run.emit]

/-- Every outcome leads `fetchNews` to one of two shapes, after one or two
suspensions. -/
theorem fetchNews_shape (o : FetchOutcome) :
    ∃ pre, (pre = [fetchCall, .suspend] ∨ pre = [fetchCall, .suspend, .suspend]) ∧
      ((∃ e, fetchNews o
          = ⟨pre ++ [.consoleError e, .setData (.arr []), .setLoading false], .ok ()⟩) ∨
        (∃ v, fetchNews o = ⟨pre ++ [.setData v, .setLoading false], .ok ()⟩)) := by
  cases o with
  | rejected reason =>
    exact ⟨_, .inl rfl, .inl ⟨_, fetchNews_of_error _ _ _ (fetchNewsTry_rejected reason)⟩⟩
  | resolved response =>
    obtain ⟨ok, json⟩ := response
    cases ok with
    | false =>
      exact ⟨_, .inl rfl, .inl ⟨_, fetchNews_of_error _ _ _ (fetchNewsTry_badStatus json)⟩⟩
    | true =>
      cases json with
      | error e =>
        exact ⟨_, .inr rfl, .inl ⟨_, fetchNews_of_error _ _ _ (fetchNewsTry_unparsable e)⟩⟩
      | ok j =>
        cases h : getProp j "articles" with
        | error e =>
          exact ⟨_, .inr rfl,
            .inl ⟨_, fetchNews_of_error _ _ _ (fetchNewsTry_noArticles j e h)⟩⟩
        | ok a =>
          cases hr : getProp a "results" with
          | error e =>
            exact ⟨_, .inr rfl,
              .inl ⟨_, fetchNews_of_error _ _ _ (fetchNewsTry_noResults j a e h hr)⟩⟩
          | ok v =>
            exact ⟨_, .inr rfl,
              .inr ⟨_, fetchNews_of_ok _ _ _ (fetchNewsTry_results j a v h hr)⟩⟩

theorem settled_of_error (o : FetchOutcome) (pre : List Effect) (e : JSError)
    (hpre : pre = [fetchCall, .suspend] ∨ pre = [fetchCall, .suspend, .suspend])
    (h : fetchNews o
      = ⟨pre ++ [.consoleError e, .setData (.arr []), .setLoading false], .ok ()⟩) :
    NewsScreen.settled o = { isLoading := false, data := .arr [] } := by
  rcases hpre with rfl | rfl <;>
    simp [NewsScreen.settled, h, NewsScreen.applyAll, NewsScreen.apply, fetchCall,
      NewsScreen.initial, setState]

theorem settled_of_ok (o : FetchOutcome) (pre : List Effect) (v : JSValue)
    (hpre : pre = [fetchCall, .suspend] ∨ pre = [fetchCall, .suspend, .suspend])
    (h : fetchNews o = ⟨pre ++ [.setData v, .setLoading false], .ok ()⟩) :
    NewsScreen.settled o = { isLoading := false, data := setState (.arr []) v } := by
  rcases hpre with rfl | rfl <;>
    simp [NewsScreen.settled, h, NewsScreen.applyAll, NewsScreen.apply, fetchCall,
      NewsScreen.initial]

theorem getProp_results_of_not_obj (a v : JSValue) (hr : getProp a "results" = .ok v)
    (hobj : ∀ fields, a ≠ .obj fields) : v = .undefined := by
  cases a with
  | undefined => simp [getProp] at hr
  | null => simp [getProp] at hr
  | bool b => simp [getProp] at hr; exact hr.symm
  | num n => simp [getProp] at hr; exact hr.symm
  | str t =>
    simp only [getProp, show ("results" == "length") = false by decide] at hr
    simp at hr; exact hr.symm
  | arr xs =>
    simp only [getProp, show ("results" == "length") = false by decide] at hr
    simp at hr; exact hr.symm
  | fn r =>
    simp only [getProp, show ("results" == "length") = false by decide] at hr
    simp at hr; exact hr.symm
  | obj fields => exact absurd rfl (hobj fields)

theorem getProp_ok_of_nonNullish (v : JSValue) (key : String) (h : nonNullish v = true) :
    ∃ x, getProp v key = .ok x := by
  cases v with
  | undefined => simp [nonNullish] at h
  | null => simp [nonNullish] at h
  | bool b => exact ⟨_, rfl⟩
  | num n => exact ⟨_, rfl⟩
  | str t => simp only [getProp]; split <;> exact ⟨_, rfl⟩
  | arr xs => simp only [getProp]; split <;> exact ⟨_, rfl⟩
  | fn r => simp only [getProp]; split <;> exact ⟨_, rfl⟩
  | obj fields => exact ⟨_, rfl⟩

theorem renderable_spec (x : JSValue) (h : renderable x = true) :
    ∃ image title description,
      getProp x "image" = .ok image ∧ getProp x "title" = .ok title ∧
        getProp x "description" = .ok description ∧
        validChild title = true ∧ validChild description = true := by
  simp only [renderable, Bool.and_eq_true] at h
  obtain ⟨⟨hn, ht⟩, hd⟩ := h
  obtain ⟨image, himage⟩ := getProp_ok_of_nonNullish x "image" hn
  cases htitle : getProp x "title" with
  | error e => simp [htitle] at ht
  | ok title =>
    cases hdesc : getProp x "description" with
    | error e => simp [hdesc] at hd
    | ok description =>
      rw [htitle] at ht
      rw [hdesc] at hd
      exact ⟨image, title, description, himage, rfl, rfl, ht, hd⟩

theorem renderArticles_spec (L : List JSValue) (start : Nat)
    (h : L.all renderable = true) :
    ∃ items, renderArticles L start = .ok items ∧ reconcileItems items = .ok items ∧
      items.map (fun i => i.key) = List.range' start L.length ∧
      items.map (fun i => i.article) = L := by
  induction L generalizing start with
  | nil => exact ⟨[], rfl, rfl, rfl, rfl⟩
  | cons x rest ih =>
    simp only [List.all_cons, Bool.and_eq_true] at h
    obtain ⟨items, hi, hrec, hk, ha⟩ := ih (start + 1) h.2
    obtain ⟨image, title, description, himage, htitle, hdescription, hvt, hvd⟩ :=
      renderable_spec x h.1
    have hx : renderArticle x start = .ok ⟨start, x, image, title, description⟩ := by
      simp [renderArticle, himage, htitle, hdescription, bind, Except.bind, pure, Except.pure]
    refine ⟨⟨start, x, image, title, description⟩ :: items, ?_, ?_, ?_, ?_⟩
    · simp only [renderArticles, hx, hi]
    · simp [reconcileItems, hvt, hvd, hrec]
    · simp [hk, List.range']
    · simp [ha]

/-! ## Claims about NewsScreen and ArticleScreen -/

/-- C3 (as stated, refuted). A success response whose `articles.results` is
present but not an array, here the string `oops`, does not produce the empty
list: `results || []` keeps the truthy value, so `data` is that string. No
exception escapes. -/
theorem non_array_results_kept :
    (fetchNews (.resolved ⟨true, .ok (.obj [("articles", .obj [("results", .str "oops")])])⟩)).completes
        = true ∧
      (NewsScreen.settled
          (.resolved ⟨true, .ok (.obj [("articles", .obj [("results", .str "oops")])])⟩)).data
        = .str "oops" ∧
      (NewsScreen.settled
          (.resolved ⟨true, .ok (.obj [("articles", .obj [("results", .str "oops")])])⟩)).data
        ≠ .arr [] :=
  ⟨rfl, rfl, fun h => JSValue.noConfusion h⟩

/-- C3 (amended). For every failure outcome of the request (the fetch rejects,
the status is not a success, the body does not parse, the parsed value has no
`articles` object, or `articles.results` is absent or falsy) `fetchNews`
completes normally and the `data` it leaves is the empty array. -/
theorem failure_gives_empty_list (o : FetchOutcome) (h : isFailureOutcome o = true) :
    (fetchNews o).completes = true ∧ (NewsScreen.settled o).data = .arr [] := by
  cases o with
  | rejected reason =>
    have hs := fetchNews_of_error _ _ _ (fetchNewsTry_rejected reason)
    exact ⟨by rw [hs]; rfl, by rw [settled_of_error _ _ _ (.inl rfl) hs]⟩
  | resolved response =>
    obtain ⟨ok, json⟩ := response
    cases ok with
    | false =>
      have hs := fetchNews_of_error _ _ _ (fetchNewsTry_badStatus json)
      exact ⟨by rw [hs]; rfl, by rw [settled_of_error _ _ _ (.inl rfl) hs]⟩
    | true =>
      cases json with
      | error e =>
        have hs := fetchNews_of_error _ _ _ (fetchNewsTry_unparsable e)
        exact ⟨by rw [hs]; rfl, by rw [settled_of_error _ _ _ (.inr rfl) hs]⟩
      | ok j =>
        cases ha : getProp j "articles" with
        | error e =>
          have hs := fetchNews_of_error _ _ _ (fetchNewsTry_noArticles j e ha)
          exact ⟨by rw [hs]; rfl, by rw [settled_of_error _ _ _ (.inr rfl) hs]⟩
        | ok a =>
          cases hr : getProp a "results" with
          | error e =>
            have hs := fetchNews_of_error _ _ _ (fetchNewsTry_noResults j a e ha hr)
            exact ⟨by rw [hs]; rfl, by rw [settled_of_error _ _ _ (.inr rfl) hs]⟩
          | ok v =>
            have hs := fetchNews_of_ok _ _ _ (fetchNewsTry_results j a v ha hr)
            have hv : truthy v = false := by
              by_cases hobj : ∃ fields, a = .obj fields
              · obtain ⟨fields, rfl⟩ := hobj
                simp only [getProp, Except.ok.injEq] at hr
                simp only [isFailureOutcome, ha, Bool.not_true, Bool.false_or,
                  Bool.not_eq_true'] at h
                rw [← hr]; exact h
              · have := getProp_results_of_not_obj a v hr (fun fields hf => hobj ⟨fields, hf⟩)
                rw [this]; rfl
            refine ⟨by rw [hs]; rfl, ?_⟩
            rw [settled_of_ok _ _ _ (.inr rfl) hs]
            simp [jsOr, hv, setState]

theorem failure_gives_empty_list_witness :
    isFailureOutcome (.resolved ⟨false, .ok (.obj [])⟩) = true ∧
      (fetchNews (.resolved ⟨false, .ok (.obj [])⟩)).completes = true ∧
      (NewsScreen.settled (.resolved ⟨false, .ok (.obj [])⟩)).data = .arr [] :=
  ⟨rfl, failure_gives_empty_list (.resolved ⟨false, .ok (.obj [])⟩) rfl⟩

/-- C4 (as stated, refuted). A success response whose `articles.results` is
the one-element array `[null]` leaves `data` equal to that array, but the
render does not map the element to an item: reading `article.image` of `null`
throws. Likewise an element whose `title` is a plain object is kept in `data`,
and the render throws because an object is not a valid child of `<Text>`. -/
theorem null_article_breaks_render :
    (NewsScreen.settled
        (.resolved ⟨true, .ok (.obj [("articles", .obj [("results", .arr [.null])])])⟩)).data
      = .arr [.null] ∧
    (NewsScreen.settled
        (.resolved ⟨true, .ok (.obj [("articles", .obj [("results", .arr [.null])])])⟩)).render
      = .error (.typeError "Cannot read properties of null (reading image)") ∧
    (NewsScreen.settled
        (.resolved ⟨true, .ok (.obj [("articles", .obj [("results",
          .arr [.obj [("title", .obj [("a", .num 1)])]])])])⟩)).data
      = .arr [.obj [("title", .obj [("a", .num 1)])]] ∧
    (NewsScreen.settled
        (.resolved ⟨true, .ok (.obj [("articles", .obj [("results",
          .arr [.obj [("title", .obj [("a", .num 1)])]])])])⟩)).render
      = .error (.error "Objects are not valid as a React child") :=
  ⟨rfl, rfl, rfl, rfl⟩

/-- C4 (amended). For every success response whose parsed JSON has
`articles.results` equal to an array `L` (of any length, also empty),
`fetchNews` completes and the `data` it leaves is exactly `L`, unfiltered and
in order; and when every element of `L` is renderable (it is neither `null`
nor `undefined`, and its `title` and `description` are valid children of
`<Text>`), the render is the list whose item `i` has key `i` and holds element
`i` of `L`. -/
theorem results_taken_verbatim (json articles : JSValue) (L : List JSValue)
    (ha : getProp json "articles" = .ok articles)
    (hr : getProp articles "results" = .ok (.arr L)) :
    (fetchNews (.resolved ⟨true, .ok json⟩)).completes = true ∧
      (NewsScreen.settled (.resolved ⟨true, .ok json⟩)).data = .arr L ∧
      (NewsScreen.settled (.resolved ⟨true, .ok json⟩)).isLoading = false ∧
      (L.all renderable = true →
        ∃ items, (NewsScreen.settled (.resolved ⟨true, .ok json⟩)).render = .ok (.list items) ∧
          items.length = L.length ∧
          items.map (fun i => i.key) = List.range L.length ∧
          items.map (fun i => i.article) = L) := by
  have hs := fetchNews_of_ok _ _ _ (fetchNewsTry_results json articles (.arr L) ha hr)
  have hset := settled_of_ok _ _ _ (.inr rfl) hs
  have hor : setState (.arr []) (jsOr (.arr L) (.arr [])) = .arr L := rfl
  rw [hor] at hset
  refine ⟨by rw [hs]; rfl, by rw [hset], by rw [hset], ?_⟩
  intro hL
  obtain ⟨items, hi, hrec, hk, hart⟩ := renderArticles_spec L 0 hL
  refine ⟨items, ?_, ?_, ?_, hart⟩
  · rw [hset]; simp [NewsScreen.render, hi, hrec]
  · rw [← hart, List.length_map]
  · rw [hk, List.range_eq_range']

theorem results_taken_verbatim_witness :
    (NewsScreen.settled (.resolved ⟨true, .ok (.obj [("articles", .obj [("results",
        .arr [.obj [("url", .str "https://example.com/a"), ("title", .str "A")], .obj []])])])⟩)).data
      = .arr [.obj [("url", .str "https://example.com/a"), ("title", .str "A")], .obj []] ∧
    [JSValue.obj [("url", .str "https://example.com/a"), ("title", .str "A")],
        JSValue.obj []].all renderable = true ∧
    ∃ items, (NewsScreen.settled (.resolved ⟨true, .ok (.obj [("articles", .obj [("results",
        .arr [.obj [("url", .str "https://example.com/a"), ("title", .str "A")],
          .obj []])])])⟩)).render
        = .ok (.list items) ∧
      items.length = 2 ∧
      items.map (fun i => i.key) = List.range 2 ∧
      items.map (fun i => i.article)
        = [.obj [("url", .str "https://example.com/a"), ("title", .str "A")], .obj []] :=
  ⟨(results_taken_verbatim (.obj [("articles", .obj [("results",
        .arr [.obj [("url", .str "https://example.com/a"), ("title", .str "A")], .obj []])])])
      (.obj [("results",
        .arr [.obj [("url", .str "https://example.com/a"), ("title", .str "A")], .obj []])])
      [.obj [("url", .str "https://example.com/a"), ("title", .str "A")], .obj []] rfl rfl).2.1,
   rfl,
   (results_taken_verbatim (.obj [("articles", .obj [("results",
        .arr [.obj [("url", .str "https://example.com/a"), ("title", .str "A")], .obj []])])])
      (.obj [("results",
        .arr [.obj [("url", .str "https://example.com/a"), ("title", .str "A")], .obj []])])
      [.obj [("url", .str "https://example.com/a"), ("title", .str "A")], .obj []]
      rfl rfl).2.2.2 rfl⟩

/-- C5. For every string `url`, `handleViewMore(url)` performs exactly one
navigation, to `Article`, whose parameters are the single field
`articleUrl = url`; and `ArticleScreen`, given any route whose `params` are
those parameters, renders a `WebView` whose source `uri` is `url`. -/
theorem article_url_round_trip (url : String) (route : JSValue)
    (hroute : getProp route "params" = .ok (.obj [("articleUrl", .str url)])) :
    handleViewMore (.str url)
        = ⟨[.navigate "Article" (.obj [("articleUrl", .str url)])], .ok ()⟩ ∧
      ArticleScreen route = .ok ⟨.str url⟩ := by
  refine ⟨rfl, ?_⟩
  simp only [ArticleScreen, bind, Except.bind, hroute]
  simp [getProp, lookupField, pure, Except.pure]

theorem article_url_round_trip_witness :
    getProp (.obj [("key", .str "Article-1"), ("name", .str "Article"),
        ("params", .obj [("articleUrl", .str "https://example.com/a")])]) "params"
      = .ok (.obj [("articleUrl", .str "https://example.com/a")]) ∧
    handleViewMore (.str "https://example.com/a")
      = ⟨[.navigate "Article" (.obj [("articleUrl", .str "https://example.com/a")])], .ok ()⟩ ∧
    ArticleScreen (.obj [("key", .str "Article-1"), ("name", .str "Article"),
        ("params", .obj [("articleUrl", .str "https://example.com/a")])])
      = .ok ⟨.str "https://example.com/a"⟩ :=
  ⟨rfl, article_url_round_trip "https://example.com/a" _ rfl⟩

/-- C10. The loading flag is true at mount. For every outcome of the request:
`fetchNews` is suspended at least once (at the `await` of the request), and in
every state in which it is suspended the flag is true and the screen renders
the activity indicator; `fetchNews` completes normally; its last effect is
`setLoading(false)` and no other effect of it writes the flag, so the flag is
written exactly once, with `false`, after every other effect, and is false
once `fetchNews` has settled. -/
theorem loading_until_settled (o : FetchOutcome) :
    NewsScreen.initial.isLoading = true ∧
      suspendedStates NewsScreen.initial (fetchNews o).trace ≠ [] ∧
      (suspendedStates NewsScreen.initial (fetchNews o).trace).all
          (fun st => st.isLoading && showsActivityIndicator st.render) = true ∧
      (fetchNews o).completes = true ∧
      (∃ body, (fetchNews o).trace = body ++ [.setLoading false] ∧ loadingWrites body = []) ∧
      loadingWrites (fetchNews o).trace = [false] ∧
      (NewsScreen.settled o).isLoading = false := by
  refine ⟨rfl, ?_⟩
  obtain ⟨pre, hpre, hshape⟩ := fetchNews_shape o
  rcases hshape with ⟨e, hs⟩ | ⟨v, hs⟩
  · have hset := settled_of_error o pre e hpre hs
    rcases hpre with rfl | rfl
    · refine ⟨?_, ?_, ?_, ?_, ?_, ?_⟩
      · rw [hs]; simp [suspendedStates, fetchCall]
      · rw [hs]; rfl
      · rw [hs]; rfl
      · exact ⟨[fetchCall, .suspend, .consoleError e, .setData (.arr [])], by rw [hs]; rfl, rfl⟩
      · rw [hs]; rfl
      · rw [hset]
    · refine ⟨?_, ?_, ?_, ?_, ?_, ?_⟩
      · rw [hs]; simp [suspendedStates, fetchCall]
      · rw [hs]; rfl
      · rw [hs]; rfl
      · exact ⟨[fetchCall, .suspend, .suspend, .consoleError e, .setData (.arr [])],
          by rw [hs]; rfl, rfl⟩
      · rw [hs]; rfl
      · rw [hset]
  · have hset := settled_of_ok o pre v hpre hs
    rcases hpre with rfl | rfl
    · refine ⟨?_, ?_, ?_, ?_, ?_, ?_⟩
      · rw [hs]; simp [suspendedStates, fetchCall]
      · rw [hs]; rfl
      · rw [hs]; rfl
      · exact ⟨[fetchCall, .suspend, .setData v], by rw [hs]; rfl, rfl⟩
      · rw [hs]; rfl
      · rw [hset]
    · refine ⟨?_, ?_, ?_, ?_, ?_, ?_⟩
      · rw [hs]; simp [suspendedStates, fetchCall]
      · rw [hs]; rfl
      · rw [hs]; rfl
      · exact ⟨[fetchCall, .suspend, .suspend, .setData v], by rw [hs]; rfl, rfl⟩
      · rw [hs]; rfl
      · rw [hset]

/-! ## Claims about DiagnosticsScreen -/

/-- C7 (evaluation at the failing input). In the scope of the module as
written, a response that carries an error code and is not a cancellation
makes both callbacks throw a `ReferenceError` when they evaluate `Alert`
(lines 137 and 155): no alert is shown. No image reference is produced. -/
theorem host_error_shows_no_alert :
    hasErrorCode (.obj [("errorCode", .str "camera_unavailable"),
        ("errorMessage", .str "Camera not available")]) = true ∧
      isCancellation (.obj [("errorCode", .str "camera_unavailable"),
        ("errorMessage", .str "Camera not available")]) = false ∧
      launchCameraCallback moduleScope (.obj [("errorCode", .str "camera_unavailable"),
          ("errorMessage", .str "Camera not available")])
        = ⟨[], .error (.referenceError "Alert")⟩ ∧
      launchImageLibraryCallback moduleScope (.obj [("errorCode", .str "camera_unavailable"),
          ("errorMessage", .str "Camera not available")])
        = ⟨[], .error (.referenceError "Alert")⟩ ∧
      alertsShown (launchCameraCallback moduleScope (.obj [("errorCode",
          .str "camera_unavailable"), ("errorMessage", .str "Camera not available")])).trace
        = [] ∧
      imageReferences (launchCameraCallback moduleScope (.obj [("errorCode",
          .str "camera_unavailable"), ("errorMessage", .str "Camera not available")])).trace
        = [] :=
  ⟨rfl, rfl, rfl, rfl, rfl, rfl⟩

/-- C8 (as stated, refuted). A response with neither `didCancel` nor
`errorCode` set and no first asset (no `assets` field, or an empty `assets`
array) makes both callbacks throw a `TypeError` at `response.assets[0].uri`;
no image reference is produced. -/
theorem missing_asset_throws :
    isCancellation (.obj []) = false ∧ hasErrorCode (.obj []) = false ∧
      launchCameraCallback ⟨true⟩ (.obj [])
        = ⟨[], .error (.typeError "Cannot read properties of undefined (reading 0)")⟩ ∧
      launchImageLibraryCallback ⟨true⟩ (.obj [])
        = ⟨[], .error (.typeError "Cannot read properties of undefined (reading 0)")⟩ ∧
      isCancellation (.obj [("assets", .arr [])]) = false ∧
      hasErrorCode (.obj [("assets", .arr [])]) = false ∧
      launchCameraCallback ⟨true⟩ (.obj [("assets", .arr [])])
        = ⟨[], .error (.typeError "Cannot read properties of undefined (reading uri)")⟩ ∧
      launchImageLibraryCallback ⟨true⟩ (.obj [("assets", .arr [])])
        = ⟨[], .error (.typeError "Cannot read properties of undefined (reading uri)")⟩ :=
  ⟨rfl, rfl, rfl, rfl, rfl, rfl, rfl, rfl⟩

/-- C8 (amended). For both picker callbacks and every response with neither
`didCancel` nor `errorCode` set for which the reads `response.assets[0].uri`
succeed (`assets` has a first element that is neither `null` nor
`undefined`): the callback completes, and its only effect is one `console.log`
of the image reference whose `uri` is that of the first asset; no alert is
shown. -/
theorem picker_success_logs_reference (g : Globals) (response assets first uri : JSValue)
    (hc : isCancellation response = false) (he : hasErrorCode response = false)
    (h1 : getProp response "assets" = .ok assets)
    (h2 : getIndex assets 0 = .ok first)
    (h3 : getProp first "uri" = .ok uri) :
    launchCameraCallback g response
        = ⟨[.consoleLog "Photo taken: " (.obj [("uri", uri)])], .ok ()⟩ ∧
      launchImageLibraryCallback g response
        = ⟨[.consoleLog "Photo selected: " (.obj [("uri", uri)])], .ok ()⟩ ∧
      imageReferences (launchCameraCallback g response).trace = [.obj [("uri", uri)]] ∧
      imageReferences (launchImageLibraryCallback g response).trace = [.obj [("uri", uri)]] ∧
      alertsShown (launchCameraCallback g response).trace = [] ∧
      alertsShown (launchImageLibraryCallback g response).trace = [] := by
  have key : launchCameraCallback g response
        = ⟨[.consoleLog "Photo taken: " (.obj [("uri", uri)])], .ok ()⟩ ∧
      launchImageLibraryCallback g response
        = ⟨[.consoleLog "Photo selected: " (.obj [("uri", uri)])], .ok ()⟩ := by
    cases hd : getProp response "didCancel" with
    | error e =>
      cases response <;> simp [getProp] at hd h1
    | ok d =>
      cases hec : getProp response "errorCode" with
      | error e =>
        cases response <;> simp [getProp] at hec h1
      | ok c =>
        have hd1 : truthy d = false := by simpa [isCancellation, hd] using hc
        have hc1 : truthy c = false := by simpa [hasErrorCode, hec] using he
        simp [launchCameraCallback, launchImageLibraryCallback, hd, hec, hd1, hc1, h1, h2, h3,
          bind, Run.andThen, Run.lift, Run.emit]
  obtain ⟨k1, k2⟩ := key
  refine ⟨k1, k2, ?_, ?_, ?_, ?_⟩ <;> simp [k1, k2, imageReferences, alertsShown]

theorem picker_success_logs_reference_witness :
    isCancellation (.obj [("assets", .arr [.obj [("uri", .str "file:///photo.jpg")]])]) = false ∧
      hasErrorCode (.obj [("assets", .arr [.obj [("uri", .str "file:///photo.jpg")]])]) = false ∧
      launchCameraCallback ⟨false⟩ (.obj [("assets", .arr [.obj [("uri", .str "file:///photo.jpg")]])])
        = ⟨[.consoleLog "Photo taken: " (.obj [("uri", .str "file:///photo.jpg")])], .ok ()⟩ :=
  ⟨rfl, rfl,
    (picker_success_logs_reference ⟨false⟩
      (.obj [("assets", .arr [.obj [("uri", .str "file:///photo.jpg")]])])
      (.arr [.obj [("uri", .str "file:///photo.jpg")]])
      (.obj [("uri", .str "file:///photo.jpg")]) (.str "file:///photo.jpg")
      rfl rfl rfl rfl rfl).1⟩

end PlantDiseaseApp
